import Mathlib

/-!
Verification development for the BEMT propeller-performance core
(`bemt_solver/geometry.py`, `bemt_solver/duct.py`, `bemt_solver/losses.py`,
`bemt_solver/core.py`, `airfoil_database_airfoiltools.py`).

Pure numeric code is embedded over `ℚ` where the Python computes with exact
piecewise-linear/rational arithmetic, and over `ℝ` where transcendental
functions (`sin`, `exp`, `arccos`, `π`) appear.  Fallible constructors are
embedded as `Except`.  Module-level name resolution (imports and attribute
lookups) is embedded as explicit lists of defined and referenced names
transcribed from the source.
-/

/-- Embedding of `np.clip(x, lo, hi)` on rationals (for `lo ≤ hi`, as at every
call site): values below `lo` become `lo`, values above `hi` become `hi`. -/
def np_clip (x lo hi : ℚ) : ℚ := if x < lo then lo else if hi < x then hi else x

/-- Piecewise-linear interpolation over successive breakpoint pairs, the inner
loop of `np.interp`: walks the sorted `(x, y)` pairs and evaluates the linear
segment containing `x`.  Callers handle the out-of-range sides. -/
def interpSegs (x : ℚ) : List (ℚ × ℚ) → ℚ
  | [] => 0
  | [(_, y1)] => y1
  | (x1, y1) :: (x2, y2) :: rest =>
    if x ≤ x2 then y1 + (y2 - y1) * (x - x1) / (x2 - x1)
    else interpSegs x ((x2, y2) :: rest)

/-- Embedding of `np.interp(x, xp, fp, right=rightv)`: below the first
breakpoint it returns `fp[0]`, strictly above the last breakpoint it returns
`rightv`, otherwise it evaluates the piecewise-linear interpolant. -/
def np_interp (x : ℚ) (xp fp : List ℚ) (rightv : ℚ) : ℚ :=
  match xp, fp with
  | x0 :: _, y0 :: _ =>
    if x < x0 then y0
    else if xp.getLastD x0 < x then rightv
    else interpSegs x (xp.zip fp)
  | _, _ => 0

/-- Embedding of the `Propeller` object of `bemt_solver/geometry.py`: the
fields assigned in `__init__` (lines 32-48), with `diameter = tip_radius * 2`. -/
structure Propeller where
  hub_radius : ℚ
  tip_radius : ℚ
  num_blades : ℤ
  diameter : ℚ
  duct_length : ℚ
  duct_lip_radius : ℚ
  r_coords : List ℚ
  pitch_coords_deg : List ℚ
  chord_coords : List ℚ
  r_coords_airfoil : List ℚ
  airfoil_names : List String
  deriving DecidableEq

/-- First validation message of `Propeller.__init__` (geometry.py line 28). -/
def lenMismatchMsg1 : String := r"r_coords, pitch_coords_deg, chord_coords mismatch"

/-- Second validation message of `Propeller.__init__` (geometry.py line 30). -/
def lenMismatchMsg2 : String := r"r_coords_airfoil_def and airfoil_names mismatch"

/-- Embedding of `Propeller.__init__` (geometry.py lines 9-48).  The Python
constructor raises `ValueError` exactly when one of the two chained length
checks fails; these are the only validations performed, after which the object
is constructed.  Arguments appear in the source order. -/
def Propeller.init (hub_radius tip_radius : ℚ) (num_blades : ℤ)
    (r_coords pitch_coords_deg chord_coords : List ℚ)
    (r_coords_airfoil_def : List ℚ) (airfoil_names : List String)
    (duct_length duct_lip_radius : ℚ) : Except String Propeller :=
  if ¬ (r_coords.length = pitch_coords_deg.length ∧
        pitch_coords_deg.length = chord_coords.length) then
    Except.error lenMismatchMsg1
  else if ¬ (r_coords_airfoil_def.length = airfoil_names.length) then
    Except.error lenMismatchMsg2
  else
    Except.ok
      { hub_radius := hub_radius
        tip_radius := tip_radius
        num_blades := num_blades
        diameter := tip_radius * 2
        duct_length := duct_length
        duct_lip_radius := duct_lip_radius
        r_coords := r_coords
        pitch_coords_deg := pitch_coords_deg
        chord_coords := chord_coords
        r_coords_airfoil := r_coords_airfoil_def
        airfoil_names := airfoil_names }

/-- Boolean success test for an `Except`-valued constructor. -/
def isOkB {ε α : Type} : Except ε α → Bool
  | Except.ok _ => true
  | Except.error _ => false

/-- Boolean test that a rational list is strictly increasing. -/
def strictIncB : List ℚ → Bool
  | [] => true
  | [_] => true
  | a :: b :: rest => if a < b then strictIncB (b :: rest) else false

/-- X axis data of duct.py line 27: duct diameter over duct length. -/
def dl_ratio_data : List ℚ := [0, 1/10, 2/10, 3/10, 4/10, 5/10, 6/10, 8/10, 1]

/-- Y axis data of duct.py line 30 (without lip). -/
def wake_diam_no_lip : List ℚ :=
  [71/100, 76/100, 84/100, 90/100, 93/100, 945/1000, 955/1000, 97/100, 975/1000]

/-- Y axis data of duct.py line 33 (with lip, R/D = 0.031). -/
def wake_diam_with_lip : List ℚ :=
  [72/100, 83/100, 89/100, 92/100, 94/100, 955/1000, 965/1000, 975/1000, 98/100]

/-- Embedding of `calculate_wake_contraction` (duct.py lines 5-58): returns
2.0 for non-positive duct length, otherwise interpolates the two digitized
curves at `diameter / duct_length`, blends them by the clipped lip-effect
factor, and returns `clip((1/ratio)^2, 1.0, 2.0)`. -/
def calculate_wake_contraction (prop : Propeller) : ℚ :=
  if prop.duct_length ≤ 0 then 2
  else
    let d_over_l := prop.diameter / prop.duct_length
    let interpNoLip := np_interp d_over_l dl_ratio_data wake_diam_no_lip 1
    let interpWithLip := np_interp d_over_l dl_ratio_data wake_diam_with_lip 1
    let currentLipR := prop.duct_lip_radius / prop.diameter
    let lipEffect := np_clip (currentLipR / (31/1000)) 0 1
    let wakeDiamR := (1 - lipEffect) * interpNoLip + lipEffect * interpWithLip
    let k := 1 / wakeDiamR
    np_clip (k ^ 2) 1 2

/-- A structurally valid ductless propeller (duct length 0), used as a
concrete witness input. -/
def propNoDuct : Propeller :=
  { hub_radius := 1/10
    tip_radius := 1/2
    num_blades := 2
    diameter := 1
    duct_length := 0
    duct_lip_radius := 0
    r_coords := [1/10, 1/2]
    pitch_coords_deg := [10, 10]
    chord_coords := [1/20, 1/20]
    r_coords_airfoil := [1/10]
    airfoil_names := [r"naca4412"] }

/-- The same propeller with a duct of length 1 (diameter 1, no lip). -/
def propDuctL1 : Propeller :=
  { propNoDuct with duct_length := 1 }

/-- The same propeller with a duct of length 10 (diameter 1, no lip). -/
def propDuctL10 : Propeller :=
  { propNoDuct with duct_length := 10 }

/-- The shared angle-of-attack axis `STANDARD_AOAS = np.arange(-5.0, 15.5, 0.5)`
of airfoil_database_airfoiltools.py line 34: the 41 half-degree steps from
-5.0 to 15.0 written out. -/
def STANDARD_AOAS : List ℚ :=
  [-5, -9/2, -4, -7/2, -3, -5/2, -2, -3/2, -1, -1/2, 0, 1/2, 1, 3/2, 2, 5/2,
   3, 7/2, 4, 9/2, 5, 11/2, 6, 13/2, 7, 15/2, 8, 17/2, 9, 19/2, 10, 21/2,
   11, 23/2, 12, 25/2, 13, 27/2, 14, 29/2, 15]

/-- The static thickness database `AIRFOIL_THICKNESS_DB` of
airfoil_database_airfoiltools.py lines 15-27, keyed by lowercase name. -/
def AIRFOIL_THICKNESS_DB : List (String × ℚ) :=
  [(r"ah-7-47-6", 6/100), (r"ah79100a", 10/100), (r"aqilla", 88/1000),
   (r"clearky", 117/1000), (r"clarky", 117/1000),
   (r"dae11", 9/100), (r"dae21", 9/100), (r"dae31", 9/100), (r"dae51", 9/100),
   (r"e193", 102/1000), (r"e395", 12/100), (r"e423", 125/1000), (r"e61", 56/1000),
   (r"fx60-100", 10/100), (r"fx63-137", 137/1000),
   (r"geminism", 9/100), (r"gm15", 138/1000),
   (r"goe430", 88/1000), (r"goe501", 129/1000), (r"goe795", 13/100),
   (r"mh32", 9/100), (r"mh114", 13/100),
   (r"naca4412", 12/100), (r"naca6409", 9/100),
   (r"s1210", 12/100), (r"s1223", 121/1000), (r"s4083", 12/100), (r"s8035", 14/100),
   (r"sd7032-099-88", 10/100), (r"sd7037-092-88", 9/100)]

/-- Embedding of Python `str.lower()` (`airfoil_name.lower()`, line 172):
lowercase every character.  Defined through `List.map` so that the kernel can
evaluate it on the concrete names appearing in this development. -/
def pyLower (s : String) : String := String.mk (s.data.map Char.toLower)

/-- Embedding of Python `dict.get(key, default)` over an association list. -/
def dbLookup (db : List (String × ℚ)) (key : String) (dflt : ℚ) : ℚ :=
  match List.lookup key db with
  | some v => v
  | none => dflt

/-- One loaded airfoil entry of `_airfoil_interpolators`: the sorted Reynolds
axis together with the resampled CL and CD grids of shape
(number of Reynolds slices) x (length of `STANDARD_AOAS`), exactly the data
`_load_airfoil_data` hands to `RegularGridInterpolator` (lines 129-136). -/
structure AirfoilGrid where
  reAxis : List ℚ
  clGrid : List (List ℚ)
  cdGrid : List (List ℚ)
  deriving DecidableEq

/-- Embedding of `np.searchsorted(xs, x)` with the default left side on a
sorted axis: the index of the first grid point at or above `x`, equal to the
count of grid points strictly below `x`. -/
def searchsortedLeft : List ℚ → ℚ → Nat
  | [], _ => 0
  | a :: rest, x => if a < x then searchsortedLeft rest x + 1 else 0

/-- Cell selection of scipy's `RegularGridInterpolator`: the index of the grid
cell used for the query, `searchsorted(xs, x) - 1` clipped into
`[0, xs.length - 2]` (natural subtraction already clips at 0), so
out-of-range queries reuse the edge cell. -/
def cellIndex (xs : List ℚ) (x : ℚ) : Nat :=
  let i := searchsortedLeft xs x - 1
  if xs.length - 2 < i then xs.length - 2 else i

/-- Value of a 2-D grid at row `i`, column `j` (0 when out of range). -/
def gridAt (vals : List (List ℚ)) (i j : Nat) : ℚ := (vals.getD i []).getD j 0

/-- Embedding of `RegularGridInterpolator((reAxis, aoaAxis), vals,
bounds_error=False, fill_value=None)` evaluated at `(re, aoa)` with the
default linear method: bilinear interpolation on the selected cell, whose
normalized coordinates fall outside `[0, 1]` for out-of-envelope queries, so
the interpolant is extended linearly (scipy's documented behavior for
`fill_value=None`). -/
def regularGridInterp (reAxis aoaAxis : List ℚ) (vals : List (List ℚ))
    (re aoa : ℚ) : ℚ :=
  let i := cellIndex reAxis re
  let j := cellIndex aoaAxis aoa
  let t := (re - reAxis.getD i 0) / (reAxis.getD (i + 1) 0 - reAxis.getD i 0)
  let u := (aoa - aoaAxis.getD j 0) / (aoaAxis.getD (j + 1) 0 - aoaAxis.getD j 0)
  (1 - t) * (1 - u) * gridAt vals i j + t * (1 - u) * gridAt vals (i + 1) j
    + (1 - t) * u * gridAt vals i (j + 1) + t * u * gridAt vals (i + 1) (j + 1)

/-- The CL query of `get_airfoil_properties` for one loaded airfoil. -/
def interpCl (g : AirfoilGrid) (re aoa : ℚ) : ℚ :=
  regularGridInterp g.reAxis STANDARD_AOAS g.clGrid re aoa

/-- The CD query of `get_airfoil_properties` for one loaded airfoil. -/
def interpCd (g : AirfoilGrid) (re aoa : ℚ) : ℚ :=
  regularGridInterp g.reAxis STANDARD_AOAS g.cdGrid re aoa

/-- Embedding of `get_airfoil_properties` (airfoil_database_airfoiltools.py
lines 155-203) over a loaded table: lowercase the name, fetch the thickness
with default 0.10, return the penalty tuple (0.001, 0.5, t_c) when the
airfoil is absent, otherwise interpolate CL and CD and floor CD at 0.0001
when it is at most 0.0001 (the `cd <= 0.0001` branch of line 201).  The
`isnan` guard of line 197 is unreachable here: the loader drops every slice
containing a NaN (line 115), and bilinear interpolation of finite rationals
is finite.  The embedding is a total function: no input raises. -/
def get_airfoil_properties (table : List (String × AirfoilGrid))
    (name : String) (re aoa : ℚ) : ℚ × ℚ × ℚ :=
  let t_c := dbLookup AIRFOIL_THICKNESS_DB (pyLower name) (10/100)
  match List.lookup (pyLower name) table with
  | none => (1/1000, 1/2, t_c)
  | some g =>
    let cl := interpCl g re aoa
    let cd := interpCd g re aoa
    if cd ≤ 1/10000 then (cl, 1/10000, t_c) else (cl, cd, t_c)

/-- Clamp a query coordinate into the sampled range of a sorted axis. -/
def clampToAxis (xs : List ℚ) (x : ℚ) : ℚ :=
  if x < xs.headD 0 then xs.headD 0
  else if xs.getLastD 0 < x then xs.getLastD 0
  else x

/-- Modelled from the spec: the claimed extrapolation policy, under which an
out-of-envelope query "returns the value obtained by clamping the query to
the nearest in-range grid value".  Declared only for comparison with the
source behavior `get_airfoil_properties`. -/
def get_airfoil_properties_clamped (table : List (String × AirfoilGrid))
    (name : String) (re aoa : ℚ) : ℚ × ℚ × ℚ :=
  let t_c := dbLookup AIRFOIL_THICKNESS_DB (pyLower name) (10/100)
  match List.lookup (pyLower name) table with
  | none => (1/1000, 1/2, t_c)
  | some g =>
    let reC := clampToAxis g.reAxis re
    let aoaC := clampToAxis STANDARD_AOAS aoa
    let cl := interpCl g reC aoaC
    let cd := interpCd g reC aoaC
    if cd ≤ 1/10000 then (cl, 1/10000, t_c) else (cl, cd, t_c)

/-- A loaded airfoil with two Reynolds slices 10000 and 20000 whose CL rows
are the constants 0.5 and 0.7 and whose CD rows are the constant 0.01: a
table reachable by `_load_airfoil_data` from two clean CSV polars. -/
def exGrid : AirfoilGrid :=
  { reAxis := [10000, 20000]
    clGrid := [List.replicate 41 (1/2), List.replicate 41 (7/10)]
    cdGrid := [List.replicate 41 (1/100), List.replicate 41 (1/100)] }

/-- Name under which `exGrid` is loaded. -/
def exName : String := r"foo"

/-- A one-airfoil loaded table holding `exGrid`. -/
def exTable : List (String × AirfoilGrid) := [(exName, exGrid)]

/-- A loaded airfoil whose CD grid is the constant -0.5 (the loader never
filters non-positive drag values, only NaN), with CL constant 0.8. -/
def negGrid : AirfoilGrid :=
  { reAxis := [10000, 20000]
    clGrid := [List.replicate 41 (4/5), List.replicate 41 (4/5)]
    cdGrid := [List.replicate 41 (-1/2), List.replicate 41 (-1/2)] }

/-- Name under which `negGrid` is loaded. -/
def negName : String := r"bar"

/-- A one-airfoil loaded table holding `negGrid`. -/
def negTable : List (String × AirfoilGrid) := [(negName, negGrid)]

/-- A name loaded in no table. -/
def absentName : String := r"mystery"

/-- Embedding of `np.clip(x, lo, hi)` on reals. -/
noncomputable def np_clipR (x lo hi : ℝ) : ℝ := min (max x lo) hi

/-- Embedding of `prandtl_tip_loss` (losses.py lines 4-39): returns 1.0 when
`|sin(phi)| < 1e-6`, otherwise clips `exp(-(B/2)((R-r)/(r sin phi)))` into
[0,1], takes `(2/pi) arccos`, and clips the result into [1e-6, 1.0]. -/
noncomputable def prandtl_tip_loss (B r R phi : ℝ) : ℝ :=
  let sin_phi := Real.sin phi
  if |sin_phi| < 1/1000000 then 1
  else
    let exponent := -(B / 2) * ((R - r) / (r * sin_phi))
    let arg := np_clipR (Real.exp exponent) 0 1
    let F_tip := (2 / Real.pi) * Real.arccos arg
    np_clipR F_tip (1/1000000) 1

/-- Embedding of `prandtl_hub_loss` (losses.py lines 41-65): the same shape
with `f` proportional to `(r - R_hub) / (R_hub sin phi)`. -/
noncomputable def prandtl_hub_loss (B r R_hub phi : ℝ) : ℝ :=
  let sin_phi := Real.sin phi
  if |sin_phi| < 1/1000000 then 1
  else
    let exponent := -(B / 2) * ((r - R_hub) / (R_hub * sin_phi))
    let arg := np_clipR (Real.exp exponent) 0 1
    let F_hub := (2 / Real.pi) * Real.arccos arg
    np_clipR F_hub (1/1000000) 1

/-- The momentum-theory thrust per unit span computed in the high-induction
branch of `residuals` (core.py line 114): the generalized momentum formula
`4 pi r rho v_axial v_i F`. -/
noncomputable def dT_mom_high_induction (r rho v_axial v_i F : ℝ) : ℝ :=
  4 * Real.pi * r * rho * v_axial * v_i * F

/-- The momentum-theory thrust per unit span computed in the forward-flight
branch of `residuals` (core.py line 117): the source text of this branch is
the same generalized momentum formula `4 pi r rho v_axial v_i F`. -/
noncomputable def dT_mom_forward_flight (r rho v_axial v_i F : ℝ) : ℝ :=
  4 * Real.pi * r * rho * v_axial * v_i * F

/-- The branch selection of core.py lines 101-117: the effective induction
ratio `a_eff` (equal to `v_i / v_infinity` when `v_infinity > 0.1`, else 100)
is compared against the threshold 0.35 to choose between the two branch
formulas. -/
noncomputable def dT_total_mom_dr (r rho v_axial v_i F a_eff : ℝ) : ℝ :=
  if a_eff > 35/100 then dT_mom_high_induction r rho v_axial v_i F
  else dT_mom_forward_flight r rho v_axial v_i F

/-- The relative-velocity-squared computation of the finalize step of
`solve_bemt` (core.py lines 29 and 157-160): `omega = rpm * 2 pi / 60`,
`W_sq_final = (v_infinity + v_i)^2 + (omega r (1 - a_prime))^2`.  The code
returns zero element forces only when this value is below 1e-6; otherwise it
proceeds to `get_airfoil_performance(prop.airfoil_name, ...)` (line 167). -/
noncomputable def finalize_W_sq (v_infinity rpm r v_i a_prime : ℝ) : ℝ :=
  let omega := rpm * 2 * Real.pi / 60
  let v_axial := v_infinity + v_i
  let v_tan := omega * r * (1 - a_prime)
  v_axial ^ 2 + v_tan ^ 2

/-- Top-level function names defined by `bemt_solver/losses.py`. -/
def lossesModuleDefs : List String := [r"prandtl_tip_loss", r"prandtl_hub_loss"]

/-- Names `bemt_solver/core.py` line 5 imports from `.losses`. -/
def coreLossesImports : List String := [r"prandtl_loss_factor"]

/-- The loss-factor name core.py imports and calls (lines 5 and 92). -/
def prandtlLossFactorName : String := r"prandtl_loss_factor"

/-- Attributes assigned to `self` in `Propeller.__init__` together with the
methods defined on the `Propeller` class (geometry.py lines 32-64). -/
def propellerAttrs : List String :=
  [r"hub_radius", r"tip_radius", r"num_blades", r"diameter", r"duct_length",
   r"duct_lip_radius", r"_r_coords_geom", r"_pitch_coords_deg", r"_chord_coords",
   r"_r_coords_airfoil", r"_airfoil_names",
   r"get_pitch_deg", r"get_chord", r"get_airfoil_name"]

/-- Attributes `solve_bemt` reads from its `prop` argument in core.py
(lines 37, 48-50, 76, 92, 167). -/
def solveBemtPropAttrReads : List String :=
  [r"hub_radius", r"tip_radius", r"get_chord", r"get_pitch_deg", r"num_blades",
   r"airfoil_name"]

/-- The attribute name read at core.py lines 76 and 167. -/
def airfoilNameAttr : String := r"airfoil_name"

/-- Helper: reading any position below the length of a replicated row yields
the replicated value. -/
theorem getD_replicate_of_lt {c : ℚ} {n j : Nat} (h : j < n) :
    (List.replicate n c).getD j 0 = c := by
  induction n generalizing j with
  | zero => omega
  | succ m ih =>
    cases j with
    | zero => simp [List.replicate_succ]
    | succ k =>
      simp only [List.replicate_succ, List.getD_cons_succ]
      exact ih (by omega)

/-- Helper: the final clip of the Prandtl loss factors keeps the value in
the interval (0, 1]. -/
theorem np_clipR_floor_bounds (x : ℝ) :
    0 < np_clipR x (1/1000000) 1 ∧ np_clipR x (1/1000000) 1 ≤ 1 := by
  unfold np_clipR
  constructor
  · exact lt_min (lt_of_lt_of_le (by norm_num) (le_max_right x (1/1000000))) one_pos
  · exact min_le_right _ _

/-- C1: the claim says `solve_bemt` returns a result tuple without raising for
every structurally valid `Propeller` and operating condition.  The code cannot
do so: core.py line 5 imports `prandtl_loss_factor` from `.losses`, a name
`losses.py` never defines (importing the module raises), and `solve_bemt`
reads the attribute `airfoil_name` (lines 76 and 167) which
`Propeller.__init__` never assigns and the class never defines, so even with
the import repaired the call raises `AttributeError`. -/
theorem solve_bemt_name_resolution_fails :
    prandtlLossFactorName ∈ coreLossesImports ∧
    prandtlLossFactorName ∉ lossesModuleDefs ∧
    airfoilNameAttr ∈ solveBemtPropAttrReads ∧
    airfoilNameAttr ∉ propellerAttrs := by
  decide

/-- C2: the claim says `calculate_wake_contraction` is monotonically
non-increasing in duct length for fixed diameter and lip radius.  Evaluating
the source function at diameter 1, lip radius 0: duct length 1 gives
1600/1521 (about 1.052) while duct length 10 gives 625/361 (about 1.731), a
strictly larger value at the longer duct, so the function grows with duct
length on positive lengths, contradicting the claim (and the function's own
comment, which attributes the minimum 1.0 to the infinitely long duct). -/
theorem wake_contraction_grows_with_duct_length :
    calculate_wake_contraction propDuctL1 = 1600/1521 ∧
    calculate_wake_contraction propDuctL10 = 625/361 ∧
    (1600 : ℚ)/1521 < 625/361 := by
  refine ⟨?_, ?_, by norm_num⟩ <;>
    norm_num [calculate_wake_contraction, propDuctL1, propDuctL10, propNoDuct,
      np_interp, np_clip, interpSegs, dl_ratio_data, wake_diam_no_lip,
      wake_diam_with_lip]

/-- C3: the claim says out-of-envelope queries are answered by clamping to the
nearest in-range grid value.  The source builds its interpolators with
`fill_value=None`, which linearly extends the interpolant: for the loaded
table `exTable` (CL 0.5 at Re 10000 and 0.7 at Re 20000) the query at
Re 30000 returns the linearly extrapolated CL 0.9, while the clamping policy
stated by the claim (and by the code's own comments) would return 0.7. -/
theorem query_extrapolates_beyond_envelope :
    get_airfoil_properties exTable exName 30000 0 = (9/10, 1/100, 1/10) ∧
    get_airfoil_properties_clamped exTable exName 30000 0 = (7/10, 1/100, 1/10) ∧
    (9 : ℚ)/10 ≠ 7/10 := by
  have hlook : List.lookup (pyLower exName) exTable = some exGrid := rfl
  have hth : dbLookup AIRFOIL_THICKNESS_DB (pyLower exName) (10/100) = 10/100 := rfl
  refine ⟨?_, ?_, by norm_num⟩
  · simp only [get_airfoil_properties, hlook, hth]
    norm_num [interpCl, interpCd, exGrid, regularGridInterp, cellIndex,
      searchsortedLeft, gridAt, STANDARD_AOAS, getD_replicate_of_lt]
  · simp only [get_airfoil_properties_clamped, hlook, hth]
    norm_num [clampToAxis, interpCl, interpCd, exGrid, regularGridInterp, cellIndex,
      searchsortedLeft, gridAt, STANDARD_AOAS, getD_replicate_of_lt]

/-- C4 counterexample: the claim asserts some trial state makes the two
momentum-theory branches produce different thrust values.  Its negation holds:
the two branch formulas of core.py lines 114 and 117 are the same function,
so no trial state distinguishes them. -/
theorem momentum_branch_formulas_identical :
    dT_mom_high_induction = dT_mom_forward_flight := rfl

/-- C4 amended: the ~0.35 induction-ratio threshold selects between two
branches that compute the identical generalized momentum formula
`4 pi r rho v_axial v_i F`, so the threshold never affects the
momentum-theory thrust entering the residual. -/
theorem momentum_threshold_never_affects_thrust (r rho v_axial v_i F a_eff : ℝ) :
    dT_total_mom_dr r rho v_axial v_i F a_eff =
      4 * Real.pi * r * rho * v_axial * v_i * F := by
  unfold dT_total_mom_dr dT_mom_high_induction dT_mom_forward_flight
  split_ifs <;> rfl

/-- C5 counterexample: the claim says construction fails fast for every input
whose radius sequence is not strictly increasing.  The constructor accepts
the non-monotonic radius sequence [2, 1, 3] (with all array lengths
matching), returning a constructed object. -/
theorem propeller_init_accepts_nonmonotonic_radii :
    isOkB (Propeller.init 0 1 2 [2, 1, 3] [0, 0, 0] [1, 1, 1] [0]
      [absentName] 0 0) = true ∧
    strictIncB [2, 1, 3] = false := by
  constructor
  · rfl
  · norm_num [strictIncB]

/-- C5 amended: `Propeller` construction fails fast with a descriptive error
exactly for mismatched control-point or airfoil-assignment array lengths;
radius monotonicity is never validated, so any radius ordering with matching
lengths constructs successfully. -/
theorem propeller_init_validates_only_lengths (hub tip : ℚ) (nb : ℤ)
    (rc pc cc ra : List ℚ) (an : List String) (dl dlr : ℚ) :
    isOkB (Propeller.init hub tip nb rc pc cc ra an dl dlr) = true ↔
      (rc.length = pc.length ∧ pc.length = cc.length ∧
        ra.length = an.length) := by
  unfold Propeller.init
  split_ifs with h1 h2 <;> simp [isOkB] <;> tauto

/-- C6: the claim says zero blade count or zero RPM makes `solve_bemt` return
all-zero thrust, torque and power.  At RPM 0 and freestream 10 m/s the
finalize step computes `W_sq_final = 100` for every radius, which is not
below the 1e-6 zero-force shortcut, so the code proceeds to read
`prop.airfoil_name` (core.py line 167) — an attribute the `Propeller` class
never defines — and raises instead of returning zeros (the module import
itself already raises, see the C1 theorem). -/
theorem zero_rpm_scenario_reaches_attribute_read :
    (∀ r : ℝ, finalize_W_sq 10 0 r 0 0 = 100) ∧
    ¬ ((100 : ℝ) < 1/1000000) ∧
    airfoilNameAttr ∉ propellerAttrs := by
  refine ⟨fun r => ?_, by norm_num, by decide⟩
  simp only [finalize_W_sq]
  norm_num

/-- C7 counterexample: the claim says a non-positive interpolated drag makes
the query return the penalty tuple (0.001, 0.5, t_c).  For the loaded table
`negTable`, whose CD grid is the constant -0.5, the in-range query returns
(0.8, 0.0001, 0.1): the interpolated lift with the drag floored at 0.0001,
not the penalty tuple. -/
theorem nonpositive_cd_returns_floored_not_penalty :
    get_airfoil_properties negTable negName 15000 0 = (4/5, 1/10000, 1/10) ∧
    ((4 : ℚ)/5, (1 : ℚ)/10000, (1 : ℚ)/10) ≠ ((1 : ℚ)/1000, (1 : ℚ)/2, (1 : ℚ)/10) := by
  have hlook : List.lookup (pyLower negName) negTable = some negGrid := rfl
  have hth : dbLookup AIRFOIL_THICKNESS_DB (pyLower negName) (10/100) = 10/100 := rfl
  constructor
  · simp only [get_airfoil_properties, hlook, hth]
    norm_num [interpCl, interpCd, negGrid, regularGridInterp, cellIndex,
      searchsortedLeft, gridAt, STANDARD_AOAS, getD_replicate_of_lt]
  · norm_num [Prod.ext_iff]

/-- C7 amended: only a NaN interpolant returns the penalty tuple; an
interpolated drag at or below 0.0001 (in particular every non-positive drag)
is floored to 0.0001 and returned together with the interpolated lift and the
static thickness, not replaced by the penalty tuple. -/
theorem cd_floor_keeps_interpolated_lift (table : List (String × AirfoilGrid))
    (name : String) (re aoa : ℚ) (g : AirfoilGrid)
    (hg : List.lookup (pyLower name) table = some g)
    (hcd : interpCd g re aoa ≤ 1/10000) :
    get_airfoil_properties table name re aoa =
      (interpCl g re aoa, 1/10000,
        dbLookup AIRFOIL_THICKNESS_DB (pyLower name) (10/100)) := by
  simp only [get_airfoil_properties, hg]
  rw [if_pos hcd]

/-- C7 witness: the amended floor behavior at the concrete table `negTable`. -/
theorem cd_floor_keeps_interpolated_lift_witness :
    List.lookup (pyLower negName) negTable = some negGrid ∧
    interpCd negGrid 15000 0 ≤ 1/10000 ∧
    get_airfoil_properties negTable negName 15000 0 =
      (interpCl negGrid 15000 0, 1/10000,
        dbLookup AIRFOIL_THICKNESS_DB (pyLower negName) (10/100)) :=
  ⟨rfl,
    by
      norm_num [interpCd, negGrid, regularGridInterp, cellIndex, searchsortedLeft,
        gridAt, STANDARD_AOAS, getD_replicate_of_lt],
    cd_floor_keeps_interpolated_lift negTable negName 15000 0 negGrid rfl
      (by
        norm_num [interpCd, negGrid, regularGridInterp, cellIndex, searchsortedLeft,
          gridAt, STANDARD_AOAS, getD_replicate_of_lt])⟩

/-- C8: a query for an airfoil absent from the loaded table returns the fixed
penalty coefficients cl = 0.001 and cd = 0.5 together with the static
thickness lookup (default 0.10), for every Reynolds number and angle of
attack; the embedded query is a total function, so no such query raises. -/
theorem unknown_airfoil_penalty (table : List (String × AirfoilGrid))
    (name : String) (re aoa : ℚ)
    (h : List.lookup (pyLower name) table = none) :
    get_airfoil_properties table name re aoa =
      (1/1000, 1/2, dbLookup AIRFOIL_THICKNESS_DB (pyLower name) (10/100)) := by
  simp only [get_airfoil_properties, h]

/-- C8 witness: the penalty result at a concrete absent name. -/
theorem unknown_airfoil_penalty_witness :
    List.lookup (pyLower absentName) ([] : List (String × AirfoilGrid)) = none ∧
    get_airfoil_properties [] absentName 12345 3 =
      (1/1000, 1/2, dbLookup AIRFOIL_THICKNESS_DB (pyLower absentName) (10/100)) :=
  ⟨rfl, unknown_airfoil_penalty [] absentName 12345 3 rfl⟩

/-- C9: for every propeller whose duct length is at most zero,
`calculate_wake_contraction` returns exactly 2.0 (duct.py lines 17-19). -/
theorem wake_contraction_no_duct (prop : Propeller)
    (h : prop.duct_length ≤ 0) :
    calculate_wake_contraction prop = 2 := by
  unfold calculate_wake_contraction
  rw [if_pos h]

/-- C9 witness: the ductless propeller `propNoDuct` with duct length 0. -/
theorem wake_contraction_no_duct_witness :
    propNoDuct.duct_length ≤ 0 ∧ calculate_wake_contraction propNoDuct = 2 :=
  ⟨by norm_num [propNoDuct], wake_contraction_no_duct propNoDuct (by norm_num [propNoDuct])⟩

/-- C10: for blade count at least 1 and radius strictly between hub and tip,
both Prandtl loss factors return exactly 1.0 when `|sin(inflow angle)|` is
below the 1e-6 tolerance, and otherwise return a value in (0, 1]: the exp
argument is clamped into [0, 1] before arccos and the result is clipped into
[1e-6, 1.0] by the source, which keeps it strictly positive and at most 1. -/
theorem prandtl_loss_unit_and_bounded (B r R R_hub phi : ℝ)
    (hB : 1 ≤ B) (hlo : R_hub < r) (hhi : r < R) :
    (|Real.sin phi| < 1/1000000 →
      prandtl_tip_loss B r R phi = 1 ∧ prandtl_hub_loss B r R_hub phi = 1) ∧
    (1/1000000 ≤ |Real.sin phi| →
      (0 < prandtl_tip_loss B r R phi ∧ prandtl_tip_loss B r R phi ≤ 1) ∧
      (0 < prandtl_hub_loss B r R_hub phi ∧ prandtl_hub_loss B r R_hub phi ≤ 1)) := by
  constructor
  · intro h
    constructor
    · simp only [prandtl_tip_loss]
      rw [if_pos h]
    · simp only [prandtl_hub_loss]
      rw [if_pos h]
  · intro h
    have h2 : ¬ |Real.sin phi| < 1/1000000 := not_lt.mpr h
    constructor
    · simp only [prandtl_tip_loss]
      rw [if_neg h2]
      exact np_clipR_floor_bounds _
    · simp only [prandtl_hub_loss]
      rw [if_neg h2]
      exact np_clipR_floor_bounds _

/-- C10 witness: two blades, hub radius 0.1, tip radius 1, station 0.5,
inflow angle 0. -/
theorem prandtl_loss_unit_and_bounded_witness :
    (1 : ℝ) ≤ 2 ∧ (1/10 : ℝ) < 1/2 ∧ (1/2 : ℝ) < 1 ∧
    ((|Real.sin 0| < 1/1000000 →
        prandtl_tip_loss 2 (1/2) 1 0 = 1 ∧ prandtl_hub_loss 2 (1/2) (1/10) 0 = 1) ∧
      (1/1000000 ≤ |Real.sin 0| →
        (0 < prandtl_tip_loss 2 (1/2) 1 0 ∧ prandtl_tip_loss 2 (1/2) 1 0 ≤ 1) ∧
        (0 < prandtl_hub_loss 2 (1/2) (1/10) 0 ∧
          prandtl_hub_loss 2 (1/2) (1/10) 0 ≤ 1))) :=
  ⟨by norm_num, by norm_num, by norm_num,
    prandtl_loss_unit_and_bounded 2 (1/2) 1 (1/10) 0 (by norm_num) (by norm_num)
      (by norm_num)⟩
